import Mathlib

/-!
Verification of the Draft SelectPlane tool
(`src/src/Mod/Draft/draftguitools/gui_selectplane.py`, class `Draft_SelectPlane`).

The module is GUI glue around a working-plane object: the session state that the
Python code keeps (the `self.states` plane history, the working plane's
`u`/`v`/`axis`/`position` components, the task-panel widgets, the event
callback, the toolbar button texts, the grid preferences) is embedded as an
explicit `SessionState` record, and each method of `Draft_SelectPlane`
becomes a function on that record.  Host facilities that the module merely
calls (Python `str` on floats, `math.cos`, `Vector.getAngle`, `Vector.Length`,
the camera) are passed in as an oracle `Host` record.  Geometry helpers that
live in FreeCAD modules outside `src/` (`WorkingPlane.py`, `DraftVecUtils.py`)
are modelled from the spec; each such definition is marked in its doc comment.
Scalars are exact rationals: the host's float epsilons collapse to exact zero
tests.
-/

namespace SelectPlane

/-- A 3D vector with exact rational components, embedding `FreeCAD.Vector`. -/
structure Vec where
  x : ℚ
  y : ℚ
  z : ℚ
deriving DecidableEq, Repr

instance : Add Vec := ⟨fun a b => ⟨a.x + b.x, a.y + b.y, a.z + b.z⟩⟩

instance : Sub Vec := ⟨fun a b => ⟨a.x - b.x, a.y - b.y, a.z - b.z⟩⟩

instance : SMul ℚ Vec := ⟨fun q v => ⟨q * v.x, q * v.y, q * v.z⟩⟩

/-- The zero vector, `FreeCAD.Vector()`. -/
def Vec.zero : Vec := ⟨0, 0, 0⟩

/-- Dot product of two vectors. -/
def dot (a b : Vec) : ℚ := a.x * b.x + a.y * b.y + a.z * b.z

/-- Cross product of two vectors. -/
def cross (a b : Vec) : Vec :=
  ⟨a.y * b.z - a.z * b.y, a.z * b.x - a.x * b.z, a.x * b.y - a.y * b.x⟩

/-- Oracle for host facilities the module calls but does not implement:
Python `str()` on a float, `Vector.getAngle`, `math.cos`, `Vector.Length`,
and the viewport camera position and view direction. -/
structure Host where
  floatStr : ℚ → String
  getAngle : Vec → Vec → ℚ
  cosFn : ℚ → ℚ
  vecLength : Vec → ℚ
  camPos : Vec
  viewDir : Vec

/-- One plane state `[p.u, p.v, p.axis, p.position]`: exactly the snapshot the
Python code appends to `self.states` and the four attributes of
`FreeCAD.DraftWorkingPlane` this module reads and writes. -/
structure PlaneState where
  u : Vec
  v : Vec
  axis : Vec
  position : Vec
deriving DecidableEq, Repr

/-- Face datum used by the solver: a normal and a point on the face
(spec 4.1, `Face(normal, pointOnFace)`). -/
structure FaceData where
  normal : Vec
  point : Vec
deriving DecidableEq, Repr

/-- A document object's placement, reduced to the plane components that
`setFromPlacement` extracts from its rotation and translation (spec 4.1:
origin/axes taken directly from the placement). -/
structure Placement where
  rotU : Vec
  rotV : Vec
  rotAxis : Vec
  pos : Vec
deriving DecidableEq, Repr

/-- A selected sub-shape, embedding the `SubObjects` entries the code
inspects: `Part.Vertex` points, faces, and anything else. -/
inductive SubShape
  | vertex (p : Vec)
  | face (f : FaceData)
  | other
deriving DecidableEq, Repr

/-- One entry of `FreeCADGui.Selection.getSelectionEx()`, carrying exactly the
attributes `handle` reads: `Draft.getType(sel.Object)`, the object's label and
placement, the picked sub-element names with their parallel sub-shapes,
whether the object is a `Part::Feature` with a non-null shape, the shape's
faces and edge directions, and the view-object flags of a working-plane proxy
(`AutoWorkingPlane`, `RestoreView`, `ViewData`; flags are false when the host
attribute is absent). -/
structure SelObject where
  objType : String
  label : String
  placement : Placement
  subElementNames : List String
  subObjects : List SubShape
  isPartFeature : Bool
  hasShape : Bool
  shapeFaces : List FaceData
  edgeDirs : List Vec
  autoWorkingPlane : Bool
  restoreView : Bool
  viewData : List ℚ
deriving DecidableEq, Repr

/-- Argument of `display`: the Python code passes either a string label
(canonical buttons) or a `FreeCAD.Vector`. -/
inductive DisplayArg
  | str (s : String)
  | vec (v : Vec)
deriving DecidableEq, Repr

/-- The mutable state a `Draft_SelectPlane` session touches: the `self.states`
history, the working plane (`FreeCAD.DraftWorkingPlane` components plus its
`weak` flag and its `stored` snapshot used by `save`/`restore`), the
task-panel centering checkbox and parsed offset field, the `gridEvery`
preference, whether the task dialog is open and the Coin event callback
installed, the toolbar working-plane button text and tooltip, a counter of
`Snapper.setGrid()` calls, and the camera position. -/
structure SessionState where
  states : List PlaneState
  plane : PlaneState
  planeWeak : Bool
  planeStored : Option PlaneState
  checkCenter : Bool
  prefCenterPlaneOnView : Bool
  fieldOffset : ℚ
  gridEvery : Int
  dialogOpen : Bool
  callInstalled : Bool
  wpText : String
  wpToolTip : String
  gridRefreshCount : Nat
  cameraPos : Vec
deriving DecidableEq, Repr

/-- A Coin `SoEvent` dictionary, restricted to the keys `action` reads. -/
structure SoEvent where
  type : String
  key : String
  state : String
  button : String
deriving DecidableEq, Repr

/-- The two session methods the raw event handler can invoke. -/
inductive SessionOp
  | finishOp
  | checkSelectionOp
deriving DecidableEq, Repr

/-- How the event handler invokes a session method: synchronously on the
input-handling path, or deferred to the next event-queue iteration via
`todo.delay`. -/
inductive Effect
  | immediate (op : SessionOp)
  | deferred (op : SessionOp)
deriving DecidableEq, Repr

/-- Helper for Python's substring test on a list of characters. -/
def containsAux (needle : List Char) : List Char → Bool
  | [] => needle.isEmpty
  | c :: t => needle.isPrefixOf (c :: t) || containsAux needle t

/-- Python's `needle in hay` substring test on strings. -/
def strContains (hay needle : String) : Bool :=
  containsAux needle.toList hay.toList

/-- Modelled from the spec: the deterministic orthonormal completion used by
`WorkingPlane.py` (not under `src/`), spec 4.1: "prefer global up-vector
projected into the plane when not parallel to normal, else fall back to a
secondary reference axis".  Unit normalization needs the host's float square
root and is omitted; no claim inspects these components. -/
def basisU (axis : Vec) : Vec :=
  let up : Vec := ⟨0, 0, 1⟩
  if cross up axis = Vec.zero then ⟨1, 0, 0⟩
  else up - ((dot up axis / dot axis axis) • axis)

/-- Modelled from the spec: `FreeCAD.DraftWorkingPlane.alignToPointAndAxis`
(`WorkingPlane.py` is not under `src/`).  Spec 4.1, `Canonical(direction)`:
the plane's axis becomes the given direction and its origin the given point
displaced by `offset` along the axis; `u`/`v` by deterministic completion. -/
def alignToPointAndAxis (point axis : Vec) (offset : ℚ) : PlaneState :=
  { u := basisU axis
    v := cross axis (basisU axis)
    axis := axis
    position := point + offset • axis }

/-- Modelled from the spec: `FreeCAD.DraftWorkingPlane.alignToFace`
(`WorkingPlane.py` is not under `src/`).  Spec 4.1, `Face(normal, point)`:
origin is the point displaced by `offset` along the normal. -/
def alignToFace (f : FaceData) (offset : ℚ) : PlaneState :=
  alignToPointAndAxis f.point f.normal offset

/-- Modelled from the spec: `FreeCAD.DraftWorkingPlane.alignTo3Points`
(`WorkingPlane.py` is not under `src/`).  Spec 4.1, `ThreePoints`: normal from
the cross product of the two edge vectors, failing with `DegenerateGeometry`
when its magnitude is below a small epsilon (exactly zero in the rational
model); origin is `p0` offset along the normal.  Per spec 7 a failure leaves
the plane unchanged, hence the `Option` result. -/
def alignTo3Points (p0 p1 p2 : Vec) (offset : ℚ) : Option PlaneState :=
  let n := cross (p1 - p0) (p2 - p0)
  if n = Vec.zero then none
  else some (alignToPointAndAxis p0 n offset)

/-- Modelled from the spec: `FreeCAD.DraftWorkingPlane.alignToEdges`
(`WorkingPlane.py` is not under `src/`).  Spec 4.1, `AxisEdges`: derive the
plane containing the common edge direction and a fixed reference normal,
failing with `DegenerateGeometry` when the edges do not share a direction.
The spec does not fix the origin; it is taken as zero, and no claim inspects
the resulting components. -/
def alignToEdges (edges : List Vec) : Option PlaneState :=
  match edges with
  | [] => none
  | d :: rest =>
    if d = Vec.zero then none
    else if rest.all (fun e => cross d e = Vec.zero) then
      some (alignToPointAndAxis Vec.zero (cross d (basisU d)) 0)
    else none

/-- Modelled from the spec: `FreeCAD.DraftWorkingPlane.setFromPlacement`
(`WorkingPlane.py` is not under `src/`).  Spec 4.1, `SavedProxy`/
`SectionPlane`: origin and axes taken directly from the placement's rotation
and translation, no offset applied. -/
def setFromPlacement (pl : Placement) : PlaneState :=
  { u := pl.rotU, v := pl.rotV, axis := pl.rotAxis, position := pl.pos }

/-- Modelled from the spec: `DraftVecUtils.project` (`DraftVecUtils.py` is not
under `src/`): the orthogonal projection of `u` onto `v`, zero when `v` is
null. -/
def project (u v : Vec) : Vec :=
  if v = Vec.zero then Vec.zero
  else (dot u v / dot v v) • v

/-- Modelled from the spec: `DraftVecUtils.scaleTo` (`DraftVecUtils.py` is not
under `src/`): `v` rescaled to length `l`; the length of `v` is host float
math and comes from the oracle. -/
def scaleTo (host : Host) (v : Vec) (l : ℚ) : Vec :=
  if v = Vec.zero then Vec.zero
  else (l / host.vecLength v) • v

/-- Modelled from the spec: `FreeCAD.DraftWorkingPlane.restore`
(`WorkingPlane.py` is not under `src/`).  `restore()` reverts the plane to a
snapshot recorded by an explicit `save()` and clears it, and does nothing when
no snapshot is stored.  The spec's own round-trip property ("PlaneHistory push
followed immediately by previous() restores the prior top exactly") requires
that `finish` perform no plane rewrite of its own, which forces this
stored-snapshot reading; no operation of this module records a snapshot. -/
def restorePlane (st : SessionState) : SessionState :=
  match st.planeStored with
  | some p => { st with plane := p, planeStored := none }
  | none => st

/-- The history-seeding step of `Activated` (lines 84-87): when `self.states`
is empty, append the snapshot of the currently active working plane.  The rest
of `Activated` builds host widgets and is outside the embedded state. -/
def activatedSeed (st : SessionState) : SessionState :=
  if st.states.isEmpty then { st with states := [st.plane] } else st

/-- `finish` (lines 143-162): persist the centering checkbox to preferences,
remove the Coin event callback, close the task dialog, and call
`FreeCAD.DraftWorkingPlane.restore()`.  (`resetEdit` acts on host state
outside the model; the guarded callback removal cannot fail here.) -/
def finish (st : SessionState) : SessionState :=
  restorePlane
    { st with prefCenterPlaneOnView := st.checkCenter
              callInstalled := false
              dialogOpen := false }

/-- `reject` (lines 164-167): clicking Cancel just runs `finish` and reports
`True`. -/
def reject (st : SessionState) : SessionState × Bool :=
  (finish st, true)

/-- The ` +O`/` -O` suffix `display` appends to the button label: sign marker
of the offset field, empty when the offset is zero (lines 457-464). -/
def offsetSuffix (o : ℚ) : String :=
  if o ≠ 0 then (if 0 < o then " +O" else " -O") else ""

/-- The `Offset` tooltip fragment of `display` (lines 475-478): present
exactly when the offset is nonzero. -/
def offsetNote (host : Host) (o : ℚ) : String :=
  if o ≠ 0 then " " ++ "Offset" ++ ": " ++ host.floatStr o else ""

/-- The direction fragment of `display` (lines 465-472): the working plane's
axis printed as a triple, each component's `str` truncated to 4 characters. -/
def vdirText (host : Host) (axis : Vec) : String :=
  " " ++ "Dir" ++ ": " ++
    ("(" ++ (host.floatStr axis.x).take 4 ++ "," ++ (host.floatStr axis.y).take 4
         ++ "," ++ (host.floatStr axis.z).take 4 ++ ")")

/-- The position triple of `display`'s Vector branch (lines 483-487), each
component's `str` truncated to 6 characters. -/
def plvText (host : Host) (v : Vec) : String :=
  "(" ++ (host.floatStr v.x).take 6 ++ "," ++ (host.floatStr v.y).take 6
      ++ "," ++ (host.floatStr v.z).take 6 ++ ")"

/-- `display` (lines 455-494): set the toolbar button text and tooltip from
the argument (string label plus offset suffix, or `Custom` with a position
triple), then append the snapshot `[p.u, p.v, p.axis, p.position]` to
`self.states` and refresh the grid.  `translate` is the identity in the
source locale. -/
def display (host : Host) (arg : DisplayArg) (st : SessionState) : SessionState :=
  let o := st.fieldOffset
  let vdir := vdirText host st.plane.axis
  let st1 :=
    match arg with
    | DisplayArg.str s =>
      let text := s ++ offsetSuffix o
      { st with wpText := text
                wpToolTip :=
                  "Current working plane" ++ ": " ++ text ++ offsetNote host o ++ vdir }
    | DisplayArg.vec v =>
      { st with wpText := "Custom"
                wpToolTip :=
                  "Current working plane" ++ ": " ++ plvText host v ++ vdir }
  { st1 with states := st1.states ++ [st1.plane]
             gridRefreshCount := st1.gridRefreshCount + 1 }

/-- `getCenterPoint` (lines 292-309): zero when the centering checkbox is off;
otherwise intersect the camera's forward ray with the axis through the given
direction, returning zero when the angle between the view direction and the
projected camera position is below 0.0001 radians. -/
def getCenterPoint (host : Host) (st : SessionState) (x y z : ℚ) : Vec :=
  if st.checkCenter = false then Vec.zero
  else
    let v : Vec := ⟨x, y, z⟩
    let cam1 := host.camPos
    let cam2 := host.viewDir
    let vcam1 := project cam1 v
    let a := host.getAngle vcam1 cam2
    if a < 1 / 10000 then Vec.zero
    else
      let d := host.vecLength vcam1
      let l := d / host.cosFn a
      cam1 + scaleTo host cam2 l

/-- `onClickTop` (lines 328-339): align the plane to `(0, 0, 1)` through the
center point with the field offset, then `display('Top')` and `finish`. -/
def onClickTop (host : Host) (st : SessionState) : SessionState :=
  let offset := st.fieldOffset
  let cp := getCenterPoint host st 0 0 1
  let st1 := { st with plane := alignToPointAndAxis cp ⟨0, 0, 1⟩ offset }
  finish (display host (DisplayArg.str "Top") st1)

/-- `onClickFront` (lines 341-352): align the plane to `(0, -1, 0)` through
the center point with the field offset, then `display('Front')` and
`finish`. -/
def onClickFront (host : Host) (st : SessionState) : SessionState :=
  let offset := st.fieldOffset
  let cp := getCenterPoint host st 0 (-1) 0
  let st1 := { st with plane := alignToPointAndAxis cp ⟨0, -1, 0⟩ offset }
  finish (display host (DisplayArg.str "Front") st1)

/-- `onClickSide` (lines 354-365): align the plane to `(1, 0, 0)` through the
center point with the field offset, then `display('Side')` and `finish`. -/
def onClickSide (host : Host) (st : SessionState) : SessionState :=
  let offset := st.fieldOffset
  let cp := getCenterPoint host st 1 0 0
  let st1 := { st with plane := alignToPointAndAxis cp ⟨1, 0, 0⟩ offset }
  finish (display host (DisplayArg.str "Side") st1)

/-- `onClickPrevious` (lines 418-429): when more than one history entry
exists, pop the most recent, assign the new top's `u`, `v`, `axis`, `position`
to the working plane, refresh the grid, and `finish`; otherwise do nothing. -/
def onClickPrevious (st : SessionState) : SessionState :=
  if 1 < st.states.length then
    match st.states.dropLast.getLast? with
    | some s =>
      finish { st with states := st.states.dropLast
                       plane := s
                       gridRefreshCount := st.gridRefreshCount + 1 }
    | none => st
  else st

/-- `onSetMainline` (lines 442-447): store the `gridEvery` preference and
refresh the grid only when the new value exceeds 1; the returned flag records
whether the grid was redrawn. -/
def onSetMainline (i : Int) (st : SessionState) : SessionState × Bool :=
  if 1 < i then
    ({ st with gridEvery := i, gridRefreshCount := st.gridRefreshCount + 1 }, true)
  else (st, false)

/-- `action` (lines 169-177): the raw Coin event handler.  ESCAPE finishes
synchronously; a BUTTON1 DOWN mouse event schedules `checkSelection` on the
next event-queue iteration through `todo.delay` ("Coin detection happens
before the selection got a chance of being updated, so we must delay"). -/
def action (ev : SoEvent) : List Effect :=
  (if ev.type = "SoKeyboardEvent" ∧ ev.key = "ESCAPE"
   then [Effect.immediate SessionOp.finishOp] else []) ++
  (if ev.type = "SoMouseButtonEvent" then
     (if ev.state = "DOWN" ∧ ev.button = "BUTTON1"
      then [Effect.deferred SessionOp.checkSelectionOp] else [])
   else [])

/-- The `isinstance(so, Part.Vertex)` filter used by `handle` and
`onClickMove`. -/
def vertexPoint : SubShape → Option Vec
  | SubShape.vertex p => some p
  | _ => none

/-- `handle` (lines 184-290): dispatch on the shape of the current selection
and build a working plane, returning the updated session and the `True`/
`False` result.  Single-object branches: an `Axis` object (align to its
edges), a `WorkingPlaneProxy`/`BuildingPart` (plane from the placement, weak
flag from `AutoWorkingPlane`, camera position from `ViewData` when
`RestoreView` is set, label on the button; camera type, clip distances and the
visibility map act on host view state outside the model), a `SectionPlane`, a
single picked sub-element whose name contains `Face` or equals `Plane`, three
picked `Vertex` sub-elements, or a `Part::Feature` whose shape has exactly one
face.  With several objects selected, exactly three picked vertex sub-shapes
align through their points.  Anything else returns `False` untouched.  The
host guarantees a sub-shape matches its sub-element name; the mismatch arms
are unreachable. -/
def handle (host : Host) (sel : List SelObject) (st : SessionState) :
    SessionState × Bool :=
  match sel with
  | [] => (st, false)
  | [s] =>
    if s.objType = "Axis" then
      let st1 := { st with plane := (alignToEdges s.edgeDirs).getD st.plane }
      (display host (DisplayArg.vec st1.plane.axis) st1, true)
    else if s.objType = "WorkingPlaneProxy" ∨ s.objType = "BuildingPart" then
      let st1 := { st with plane := setFromPlacement s.placement
                           planeWeak := s.autoWorkingPlane }
      let st2 :=
        if s.restoreView ∧ 12 ≤ s.viewData.length then
          { st1 with cameraPos :=
              ⟨s.viewData.getD 0 0, s.viewData.getD 1 0, s.viewData.getD 2 0⟩ }
        else st1
      let st3 := display host (DisplayArg.vec st2.plane.axis) st2
      ({ st3 with wpText := s.label
                  wpToolTip := "Current working plane" ++ ": " ++ s.label }, true)
    else if s.objType = "SectionPlane" then
      let st1 := { st with plane := setFromPlacement s.placement
                           planeWeak := false }
      let st2 := display host (DisplayArg.vec st1.plane.axis) st1
      ({ st2 with wpText := s.label
                  wpToolTip := "Current working plane" ++ ": " ++ s.label }, true)
    else if s.subElementNames ≠ [] then
      if s.subElementNames.length = 1 then
        if strContains (s.subElementNames.getD 0 "") "Face" then
          match s.subObjects with
          | SubShape.face f :: _ =>
            let st1 := { st with plane := alignToFace f st.fieldOffset }
            (display host (DisplayArg.vec st1.plane.axis) st1, true)
          | _ => (st, true)
        else if s.subElementNames.getD 0 "" = "Plane" then
          let st1 := { st with plane := setFromPlacement s.placement }
          (display host (DisplayArg.vec st1.plane.axis) st1, true)
        else (st, false)
      else if s.subElementNames.length = 3 then
        if strContains (s.subElementNames.getD 0 "") "Vertex"
            ∧ strContains (s.subElementNames.getD 1 "") "Vertex"
            ∧ strContains (s.subElementNames.getD 2 "") "Vertex" then
          match s.subObjects with
          | [SubShape.vertex p0, SubShape.vertex p1, SubShape.vertex p2] =>
            let st1 :=
              { st with plane := (alignTo3Points p0 p1 p2 st.fieldOffset).getD st.plane }
            (display host (DisplayArg.vec st1.plane.axis) st1, true)
          | _ => (st, true)
        else (st, false)
      else (st, false)
    else if s.isPartFeature then
      if s.hasShape then
        match s.shapeFaces with
        | [f] =>
          let st1 := { st with plane := alignToFace f st.fieldOffset }
          (display host (DisplayArg.vec st1.plane.axis) st1, true)
        | _ => (st, false)
      else (st, false)
    else (st, false)
  | _ :: _ :: _ =>
    match sel.flatMap (fun s => s.subObjects.filterMap vertexPoint) with
    | [p0, p1, p2] =>
      let st1 :=
        { st with plane := (alignTo3Points p0 p1 p2 st.fieldOffset).getD st.plane }
      (display host (DisplayArg.vec st1.plane.axis) st1, true)
    | _ => (st, false)

/-- `checkSelection` (lines 179-182): run `handle` on the current selection
and terminate the session when it succeeds. -/
def checkSelection (host : Host) (sel : List SelObject) (st : SessionState) :
    SessionState :=
  let r := handle host sel st
  if r.2 then finish r.1 else r.1

/-- A concrete host for evaluating the embedding: rationals rendered through
`toString`, degenerate trigonometry (angle constantly zero). -/
def hostA : Host :=
  { floatStr := fun q => toString q
    getAngle := fun _ _ => 0
    cosFn := fun _ => 1
    vecLength := fun _ => 0
    camPos := ⟨0, 0, 0⟩
    viewDir := ⟨0, 0, -1⟩ }

/-- A concrete plane: the standard top plane. -/
def planeA : PlaneState := ⟨⟨1, 0, 0⟩, ⟨0, 1, 0⟩, ⟨0, 0, 1⟩, ⟨0, 0, 0⟩⟩

/-- A concrete plane distinct from `planeA` in every component. -/
def planeB : PlaneState := ⟨⟨0, 0, 1⟩, ⟨1, 0, 0⟩, ⟨0, 1, 0⟩, ⟨5, 5, 5⟩⟩

/-- A concrete side-style plane used as the pre-activation plane. -/
def plane0 : PlaneState := ⟨⟨0, 1, 0⟩, ⟨0, 0, 1⟩, ⟨1, 0, 0⟩, ⟨2, 2, 2⟩⟩

/-- A baseline session state: one history entry, centering off, offset zero. -/
def stW : SessionState :=
  { states := [planeA]
    plane := planeA
    planeWeak := false
    planeStored := none
    checkCenter := false
    prefCenterPlaneOnView := false
    fieldOffset := 0
    gridEvery := 10
    dialogOpen := false
    callInstalled := false
    wpText := ""
    wpToolTip := ""
    gridRefreshCount := 0
    cameraPos := ⟨0, 0, 0⟩ }

/-- Baseline state with an empty history (before any activation). -/
def stEmpty : SessionState := { stW with states := [] }

/-- Baseline state with two history entries and stale status texts. -/
def stTwo : SessionState :=
  { stW with states := [planeA, planeB], plane := planeB,
             wpText := "stale", wpToolTip := "stale" }

/-- Baseline state with a nonzero offset field. -/
def stOff : SessionState := { stW with fieldOffset := 5 }

/-- Baseline state with the centering checkbox ticked. -/
def stC : SessionState := { stW with checkCenter := true }

/-- Baseline state of a session awaiting selection: dialog open, event
callback installed. -/
def stAwait : SessionState :=
  { stW with dialogOpen := true, callInstalled := true }

/-- Pre-activation state: empty history, `plane0` active, nothing open. -/
def stStart : SessionState :=
  { stW with states := [], plane := plane0 }

/-- A full concrete session: activation seeds the history, then the Top
button applies a canonical plane and terminates the session. -/
def sessionRun : SessionState := onClickTop hostA (activatedSeed stStart)

/-- A placement used by concrete selections. -/
def plB : Placement := ⟨⟨1, 0, 0⟩, ⟨0, 1, 0⟩, ⟨0, 0, 1⟩, ⟨0, 0, 0⟩⟩

/-- A concrete selection of a single unrecognized object: no known Draft
type, no picked sub-elements, not a `Part::Feature`. -/
def selNoMatch : List SelObject :=
  [{ objType := "App::FeaturePython"
     label := "obj"
     placement := plB
     subElementNames := []
     subObjects := []
     isPartFeature := false
     hasShape := false
     shapeFaces := []
     edgeDirs := []
     autoWorkingPlane := false
     restoreView := false
     viewData := [] }]

/-- A concrete selection of three collinear vertices on one object:
degenerate geometry for the three-point solver. -/
def selCollinear : List SelObject :=
  [{ objType := "Part::TopoShape"
     label := "obj"
     placement := plB
     subElementNames := ["Vertex1", "Vertex2", "Vertex3"]
     subObjects := [SubShape.vertex ⟨0, 0, 0⟩, SubShape.vertex ⟨1, 0, 0⟩,
                    SubShape.vertex ⟨2, 0, 0⟩]
     isPartFeature := true
     hasShape := true
     shapeFaces := []
     edgeDirs := []
     autoWorkingPlane := false
     restoreView := false
     viewData := [] }]

/-- The BUTTON1 DOWN mouse event. -/
def evButton1Down : SoEvent :=
  { type := "SoMouseButtonEvent", key := "", state := "DOWN", button := "BUTTON1" }

theorem restorePlane_states (st : SessionState) :
    (restorePlane st).states = st.states := by
  unfold restorePlane; cases hp : st.planeStored <;> simp

theorem restorePlane_none (st : SessionState) (hp : st.planeStored = none) :
    restorePlane st = st := by
  unfold restorePlane; rw [hp]

theorem finish_eq (st : SessionState) (hp : st.planeStored = none) :
    finish st = { st with prefCenterPlaneOnView := st.checkCenter
                          callInstalled := false
                          dialogOpen := false } := by
  unfold finish
  exact restorePlane_none _ hp

theorem finish_states (st : SessionState) : (finish st).states = st.states := by
  unfold finish; rw [restorePlane_states]

theorem finish_wpText (st : SessionState) : (finish st).wpText = st.wpText := by
  unfold finish restorePlane; cases hp : st.planeStored <;> simp

theorem finish_wpToolTip (st : SessionState) : (finish st).wpToolTip = st.wpToolTip := by
  unfold finish restorePlane; cases hp : st.planeStored <;> simp

theorem finish_gridRefreshCount (st : SessionState) :
    (finish st).gridRefreshCount = st.gridRefreshCount := by
  unfold finish restorePlane; cases hp : st.planeStored <;> simp

theorem finish_dialogOpen (st : SessionState) : (finish st).dialogOpen = false := by
  unfold finish restorePlane; cases hp : st.planeStored <;> simp

theorem finish_plane_of_none (st : SessionState) (hp : st.planeStored = none) :
    (finish st).plane = st.plane := by
  rw [finish_eq st hp]

theorem display_states (host : Host) (arg : DisplayArg) (st : SessionState) :
    (display host arg st).states = st.states ++ [st.plane] := by
  cases arg <;> rfl

theorem display_plane (host : Host) (arg : DisplayArg) (st : SessionState) :
    (display host arg st).plane = st.plane := by
  cases arg <;> rfl

theorem display_planeStored (host : Host) (arg : DisplayArg) (st : SessionState) :
    (display host arg st).planeStored = st.planeStored := by
  cases arg <;> rfl

theorem display_gridRefreshCount (host : Host) (arg : DisplayArg) (st : SessionState) :
    (display host arg st).gridRefreshCount = st.gridRefreshCount + 1 := by
  cases arg <;> rfl

theorem dropLast_append_single {α : Type} (l : List α) (a : α) :
    (l ++ [a]).dropLast = l := by
  simp

theorem vec_add_def (a b : Vec) : a + b = ⟨a.x + b.x, a.y + b.y, a.z + b.z⟩ := rfl

theorem vec_sub_def (a b : Vec) : a - b = ⟨a.x - b.x, a.y - b.y, a.z - b.z⟩ := rfl

theorem vec_smul_def (q : ℚ) (v : Vec) : q • v = ⟨q * v.x, q * v.y, q * v.z⟩ := rfl

/-- C10: for every integer `i` at most 1, `onSetMainline i` leaves the whole
session state (in particular the `gridEvery` preference and the grid-refresh
counter) unchanged and reports no redraw; for `i` greater than 1 it stores the
value and redraws the grid. -/
theorem onSetMainline_threshold (i : Int) (st : SessionState) :
    (i ≤ 1 → onSetMainline i st = (st, false)) ∧
    (1 < i →
      (onSetMainline i st).1.gridEvery = i ∧
      (onSetMainline i st).1.gridRefreshCount = st.gridRefreshCount + 1 ∧
      (onSetMainline i st).2 = true) := by
  constructor
  · intro h
    unfold onSetMainline
    rw [if_neg (by omega)]
  · intro h
    unfold onSetMainline
    rw [if_pos h]
    exact ⟨rfl, rfl, rfl⟩

theorem onSetMainline_threshold_wit :
    onSetMainline 1 stW = (stW, false) ∧ (onSetMainline 5 stW).1.gridEvery = 5 :=
  ⟨(onSetMainline_threshold 1 stW).1 (by decide),
   ((onSetMainline_threshold 5 stW).2 (by decide)).1⟩

/-- C9: the raw input handler never runs `checkSelection` synchronously: no
event produces an immediate `checkSelection` effect, and every BUTTON1 DOWN
mouse event produces exactly the deferred `checkSelection` effect
(`todo.delay`), so the selection is inspected only on the next iteration of
the host's event queue. -/
theorem action_defers_selection (ev : SoEvent) :
    Effect.immediate SessionOp.checkSelectionOp ∉ action ev ∧
    (ev.type = "SoMouseButtonEvent" → ev.state = "DOWN" → ev.button = "BUTTON1" →
      action ev = [Effect.deferred SessionOp.checkSelectionOp]) := by
  constructor
  · unfold action
    split <;> split <;> simp_all
  · intro h1 h2 h3
    unfold action
    rw [h1, h2, h3]
    simp

theorem action_defers_selection_wit :
    action evButton1Down = [Effect.deferred SessionOp.checkSelectionOp] :=
  (action_defers_selection evButton1Down).2 rfl rfl rfl

theorem display_cameraPos (host : Host) (arg : DisplayArg) (st : SessionState) :
    (display host arg st).cameraPos = st.cameraPos := by
  cases arg <;> rfl

theorem restorePlane_cameraPos (st : SessionState) :
    (restorePlane st).cameraPos = st.cameraPos := by
  unfold restorePlane; cases hp : st.planeStored <;> simp

theorem finish_cameraPos (st : SessionState) :
    (finish st).cameraPos = st.cameraPos := by
  unfold finish; rw [restorePlane_cameraPos]

/-- C7: in the degenerate centering case, when the angle reported between the
view direction and the projected camera position is below 0.0001 radians,
`getCenterPoint` returns the zero vector, and the canonical-button flow leaves
the camera position untouched; this is an ordinary result, not an error. -/
theorem centering_degenerate_zero (host : Host) (st : SessionState) (x y z : ℚ)
    (ha : host.getAngle (project host.camPos ⟨x, y, z⟩) host.viewDir < 1 / 10000) :
    getCenterPoint host st x y z = Vec.zero ∧
    (onClickTop host st).cameraPos = st.cameraPos := by
  constructor
  · unfold getCenterPoint
    split
    · rfl
    · rw [if_pos ha]
  · unfold onClickTop
    rw [finish_cameraPos, display_cameraPos]

theorem centering_degenerate_zero_wit :
    getCenterPoint hostA stC 0 0 1 = Vec.zero ∧
    (onClickTop hostA stC).cameraPos = stC.cameraPos :=
  centering_degenerate_zero hostA stC 0 0 1 (by norm_num [hostA])

/-- C1 (amended): `finish`/`reject` persist the centering preference, remove
the event callback and close the dialog, but leave the plane history
untouched — no intermediate entry is discarded — and, when no snapshot was
explicitly saved (this module never saves one), the working plane keeps its
current value rather than reverting to the plane active before `activate`. -/
theorem finish_preserves_history (st : SessionState) :
    (finish st).states = st.states ∧
    (finish st).callInstalled = false ∧
    (finish st).dialogOpen = false ∧
    (finish st).prefCenterPlaneOnView = st.checkCenter ∧
    (st.planeStored = none → (finish st).plane = st.plane) := by
  refine ⟨finish_states st, ?_, ?_, ?_, ?_⟩
  · unfold finish restorePlane; cases hp : st.planeStored <;> simp
  · unfold finish restorePlane; cases hp : st.planeStored <;> simp
  · unfold finish restorePlane; cases hp : st.planeStored <;> simp
  · intro hp
    rw [finish_eq st hp]

theorem finish_preserves_history_wit :
    (finish stTwo).states = stTwo.states ∧ (finish stTwo).plane = stTwo.plane :=
  ⟨(finish_preserves_history stTwo).1, (finish_preserves_history stTwo).2.2.2.2 rfl⟩

/-- C1 (counterexample): a full session — activation seeding the history with
the pre-activation plane `plane0`, then a successful Top click which appends
one entry and terminates the session — ends with both entries still in the
history and with the new plane (axis `(0,0,1)`) still active, not `plane0`
(axis `(1,0,0)`): cancelling/finishing neither restores the first history
entry nor discards the intermediate ones. -/
theorem cancel_discards_history_cex :
    sessionRun.states.length = 2 ∧
    sessionRun.plane.axis = ⟨0, 0, 1⟩ ∧
    plane0.axis = ⟨1, 0, 0⟩ ∧
    sessionRun.dialogOpen = false :=
  ⟨rfl, rfl, rfl, rfl⟩

/-- C2: the plane history is never empty after activation: `Activated` seeds
an empty history with the snapshot of the active plane, `display` (run after
every successful plane change) appends exactly one entry, `onClickPrevious`
removes exactly one entry only when more than one exists, and with exactly
one entry a previous request leaves the entire session state — history and
working plane included — unchanged. -/
theorem planeHistory_invariants (host : Host) (arg : DisplayArg) (st : SessionState) :
    (activatedSeed st).states ≠ [] ∧
    (st.states = [] → (activatedSeed st).states = [st.plane]) ∧
    (display host arg st).states.length = st.states.length + 1 ∧
    (1 < st.states.length → (onClickPrevious st).states.length + 1 = st.states.length) ∧
    (st.states ≠ [] → (onClickPrevious st).states ≠ []) ∧
    (st.states.length = 1 → onClickPrevious st = st) := by
  have hprev : ∀ s : SessionState, 1 < s.states.length →
      (onClickPrevious s).states = s.states.dropLast := by
    intro s hs
    unfold onClickPrevious
    rw [if_pos hs]
    rcases hq : s.states.dropLast.getLast? with _ | p
    · rw [List.getLast?_eq_none_iff] at hq
      have := congrArg List.length hq
      rw [List.length_dropLast] at this
      simp at this
      omega
    · rw [finish_states]
  refine ⟨?_, ?_, ?_, ?_, ?_, ?_⟩
  · unfold activatedSeed
    split
    · simp
    · next h => simp_all [List.isEmpty_iff]
  · intro h
    unfold activatedSeed
    simp [h]
  · rw [display_states]
    simp
  · intro h
    rw [hprev st h, List.length_dropLast]
    omega
  · intro h
    by_cases hl : 1 < st.states.length
    · rw [hprev st hl]
      intro hc
      have h2 := congrArg List.length hc
      rw [List.length_dropLast] at h2
      simp at h2
      omega
    · unfold onClickPrevious
      rw [if_neg hl]
      exact h
  · intro h
    unfold onClickPrevious
    rw [if_neg (by omega)]

theorem planeHistory_invariants_wit :
    (activatedSeed stEmpty).states = [stEmpty.plane] ∧ onClickPrevious stW = stW :=
  ⟨(planeHistory_invariants hostA (DisplayArg.str "x") stEmpty).2.1 rfl,
   (planeHistory_invariants hostA (DisplayArg.str "x") stW).2.2.2.2.2 rfl⟩

theorem onClickPrevious_eq (st : SessionState) (s : PlaneState)
    (h : 1 < st.states.length) (hs : st.states.dropLast.getLast? = some s) :
    onClickPrevious st =
      finish { st with states := st.states.dropLast
                       plane := s
                       gridRefreshCount := st.gridRefreshCount + 1 } := by
  unfold onClickPrevious
  rw [if_pos h, hs]

/-- C4 (amended): a previous request with more than one history entry
discards the most recent entry, applies the new top entry's `u`, `v`, `axis`,
`position` components to the working plane, refreshes the grid and terminates
the session — but the toolbar status text and tooltip are left exactly as
they were, not reformatted to the restored plane. -/
theorem previous_restores_top (st : SessionState) (s : PlaneState)
    (h1 : 1 < st.states.length)
    (h2 : st.states.dropLast.getLast? = some s)
    (h3 : st.planeStored = none) :
    (onClickPrevious st).states = st.states.dropLast ∧
    (onClickPrevious st).plane = s ∧
    (onClickPrevious st).gridRefreshCount = st.gridRefreshCount + 1 ∧
    (onClickPrevious st).wpText = st.wpText ∧
    (onClickPrevious st).wpToolTip = st.wpToolTip ∧
    (onClickPrevious st).dialogOpen = false := by
  rw [onClickPrevious_eq st s h1 h2]
  refine ⟨?_, ?_, ?_, ?_, ?_, ?_⟩
  · rw [finish_states]
  · rw [finish_plane_of_none _ (by exact h3)]
  · rw [finish_gridRefreshCount]
  · rw [finish_wpText]
  · rw [finish_wpToolTip]
  · rw [finish_dialogOpen]

theorem previous_restores_top_wit :
    (onClickPrevious stTwo).states = [planeA] ∧ (onClickPrevious stTwo).plane = planeA :=
  ⟨(previous_restores_top stTwo planeA (by decide) rfl rfl).1,
   (previous_restores_top stTwo planeA (by decide) rfl rfl).2.1⟩

/-- C4 (counterexample): with history `[planeA, planeB]` and stale status
texts, a previous request restores `planeA` to the working plane but leaves
the button text and tooltip at their stale values, which contain no direction
fragment at all — the status text is not reformatted. -/
theorem previous_no_reformat_cex :
    (onClickPrevious stTwo).plane = planeA ∧
    (onClickPrevious stTwo).wpText = "stale" ∧
    (onClickPrevious stTwo).wpToolTip = "stale" ∧
    strContains "stale" "Dir" = false ∧
    planeA ≠ planeB :=
  ⟨rfl, rfl, rfl, by decide, by decide⟩

/-- C5: pushing the current plane snapshot (the append performed by `display`
after a successful plane change) and then immediately requesting previous
restores exactly the plane state that was on top of the history before the
push, and returns the history itself to its pre-push value. -/
theorem push_previous_roundtrip (host : Host) (arg : DisplayArg) (st : SessionState)
    (top : PlaneState)
    (h1 : st.states.getLast? = some top) (h2 : st.planeStored = none) :
    (onClickPrevious (display host arg st)).plane = top ∧
    (onClickPrevious (display host arg st)).states = st.states := by
  have hne : st.states ≠ [] := by
    intro h
    rw [h] at h1
    simp at h1
  have hlen : 1 < (display host arg st).states.length := by
    rw [display_states, List.length_append]
    have := List.length_pos.mpr hne
    simp
    omega
  have hdl : (display host arg st).states.dropLast = st.states := by
    rw [display_states, dropLast_append_single]
  have hlast : (display host arg st).states.dropLast.getLast? = some top := by
    rw [hdl]
    exact h1
  have hstored : (display host arg st).planeStored = none := by
    rw [display_planeStored]
    exact h2
  rw [onClickPrevious_eq _ top hlen hlast]
  constructor
  · rw [finish_plane_of_none _ (by exact hstored)]
  · rw [finish_states]
    exact hdl

theorem push_previous_roundtrip_wit :
    (onClickPrevious (display hostA (DisplayArg.str "Top") stW)).plane = planeA ∧
    (onClickPrevious (display hostA (DisplayArg.str "Top") stW)).states = stW.states :=
  push_previous_roundtrip hostA (DisplayArg.str "Top") stW planeA rfl rfl

/-- C6: the canonical buttons align the working plane to the fixed directions
Top `(0,0,1)`, Front `(0,-1,0)` and Side `(1,0,0)`, passing the offset read
from the offset field; with centering disabled the center point passed is the
zero vector, so Top with offset 0 yields axis `(0,0,1)` and position
`(0,0,0)`. -/
theorem canonical_buttons_axes (host : Host) (st : SessionState)
    (hc : st.checkCenter = false) (hs : st.planeStored = none) :
    (∀ x y z : ℚ, getCenterPoint host st x y z = Vec.zero) ∧
    (onClickTop host st).plane.axis = ⟨0, 0, 1⟩ ∧
    (onClickFront host st).plane.axis = ⟨0, -1, 0⟩ ∧
    (onClickSide host st).plane.axis = ⟨1, 0, 0⟩ ∧
    (st.fieldOffset = 0 → (onClickTop host st).plane.position = Vec.zero) := by
  have hg : ∀ x y z : ℚ, getCenterPoint host st x y z = Vec.zero := by
    intro x y z
    unfold getCenterPoint
    rw [hc]
    simp
  have hT : (onClickTop host st).plane =
      alignToPointAndAxis (getCenterPoint host st 0 0 1) ⟨0, 0, 1⟩ st.fieldOffset := by
    unfold onClickTop
    rw [finish_plane_of_none _ (by rw [display_planeStored]; exact hs), display_plane]
  have hF : (onClickFront host st).plane =
      alignToPointAndAxis (getCenterPoint host st 0 (-1) 0) ⟨0, -1, 0⟩ st.fieldOffset := by
    unfold onClickFront
    rw [finish_plane_of_none _ (by rw [display_planeStored]; exact hs), display_plane]
  have hS : (onClickSide host st).plane =
      alignToPointAndAxis (getCenterPoint host st 1 0 0) ⟨1, 0, 0⟩ st.fieldOffset := by
    unfold onClickSide
    rw [finish_plane_of_none _ (by rw [display_planeStored]; exact hs), display_plane]
  refine ⟨hg, by rw [hT]; rfl, by rw [hF]; rfl, by rw [hS]; rfl, ?_⟩
  intro hoff
  rw [hT, hg, hoff]
  show Vec.zero + (0 : ℚ) • (⟨0, 0, 1⟩ : Vec) = Vec.zero
  norm_num [Vec.zero, Vec.mk.injEq, vec_add_def, vec_smul_def]

theorem canonical_buttons_axes_wit :
    (onClickTop hostA stW).plane.axis = ⟨0, 0, 1⟩ ∧
    (onClickTop hostA stW).plane.position = Vec.zero :=
  ⟨(canonical_buttons_axes hostA stW rfl rfl).2.1,
   (canonical_buttons_axes hostA stW rfl rfl).2.2.2.2 rfl⟩

/-- C8 (amended): after a successful plane change `display` recomputes the
status text.  For a string-labelled change (canonical buttons) the button text
is the label plus a ` +O`/` -O` suffix that is empty exactly when the offset
field is zero, and the tooltip carries an `Offset` entry exactly when the
offset is nonzero, followed by the direction triple; for a vector-labelled
change (selection-driven) the button text is `Custom` and the tooltip carries
the position and direction triples but no offset annotation at all, even when
the offset is nonzero. -/
theorem display_status_text (host : Host) (st : SessionState) (s : String) (v : Vec) :
    (display host (DisplayArg.str s) st).wpText = s ++ offsetSuffix st.fieldOffset ∧
    (display host (DisplayArg.str s) st).wpToolTip =
      "Current working plane" ++ ": " ++ (s ++ offsetSuffix st.fieldOffset)
        ++ offsetNote host st.fieldOffset ++ vdirText host st.plane.axis ∧
    (offsetSuffix st.fieldOffset = "" ↔ st.fieldOffset = 0) ∧
    (st.fieldOffset = 0 → offsetNote host st.fieldOffset = "") ∧
    (st.fieldOffset ≠ 0 → offsetNote host st.fieldOffset =
      " " ++ "Offset" ++ ": " ++ host.floatStr st.fieldOffset) ∧
    (display host (DisplayArg.vec v) st).wpText = "Custom" ∧
    (display host (DisplayArg.vec v) st).wpToolTip =
      "Current working plane" ++ ": " ++ plvText host v ++ vdirText host st.plane.axis := by
  refine ⟨rfl, rfl, ?_, ?_, ?_, rfl, rfl⟩
  · constructor
    · intro h
      by_contra ho
      unfold offsetSuffix at h
      rw [if_pos ho] at h
      split at h
      · exact absurd h (by decide)
      · exact absurd h (by decide)
    · intro h
      unfold offsetSuffix
      simp [h]
  · intro h
    unfold offsetNote
    simp [h]
  · intro h
    unfold offsetNote
    rw [if_pos h]

theorem display_status_text_wit :
    (display hostA (DisplayArg.str "Top") stOff).wpText =
      "Top" ++ offsetSuffix stOff.fieldOffset ∧
    offsetNote hostA stOff.fieldOffset =
      " " ++ "Offset" ++ ": " ++ hostA.floatStr stOff.fieldOffset :=
  ⟨(display_status_text hostA stOff "Top" ⟨0, 0, 1⟩).1,
   (display_status_text hostA stOff "Top" ⟨0, 0, 1⟩).2.2.2.2.1 (by norm_num [stOff, stW])⟩

/-- C8 (counterexample): with a nonzero offset (5) a vector-labelled
`display` — the form used after every selection-driven plane change — sets
the button text to `Custom` with no ` +O` suffix and emits a tooltip that
contains no `Offset` entry: the offset annotation is not present even though
the offset field is nonzero. -/
theorem display_vector_offset_cex :
    stOff.fieldOffset ≠ 0 ∧
    (display hostA (DisplayArg.vec ⟨0, 0, 1⟩) stOff).wpText = "Custom" ∧
    strContains (display hostA (DisplayArg.vec ⟨0, 0, 1⟩) stOff).wpToolTip "+O" = false ∧
    strContains (display hostA (DisplayArg.vec ⟨0, 0, 1⟩) stOff).wpToolTip "Offset" = false := by
  refine ⟨by norm_num [stOff, stW], rfl, ?_, ?_⟩
  · rfl
  · rfl

/-- C3 (amended): whenever `handle` fails — a selection matching none of the
recognized shapes — it returns `False` with the entire session state
unchanged, and `checkSelection` then leaves the session awaiting input
(dialog and callback state untouched); but degenerate geometry is not such a
failure: `handle` never inspects the solver's result, so it still returns
`True` and the session terminates (see the counterexample). -/
theorem handle_failure_absorbed (host : Host) (sel : List SelObject) (st : SessionState)
    (h : (handle host sel st).2 = false) :
    (handle host sel st).1 = st ∧ checkSelection host sel st = st := by
  have key : (handle host sel st).2 = false → (handle host sel st).1 = st := by
    unfold handle
    repeat' split
    all_goals intro hh
    all_goals first | rfl | exact Bool.noConfusion hh
  refine ⟨key h, ?_⟩
  have hne : (handle host sel st).2 ≠ true := by
    rw [h]
    exact Bool.false_ne_true
  unfold checkSelection
  rw [if_neg hne]
  exact key h

theorem handle_failure_absorbed_wit :
    (handle hostA selNoMatch stAwait).2 = false ∧
    checkSelection hostA selNoMatch stAwait = stAwait ∧
    stAwait.dialogOpen = true ∧ stAwait.callInstalled = true :=
  ⟨rfl, (handle_failure_absorbed hostA selNoMatch stAwait rfl).2, rfl, rfl⟩

/-- C3 (counterexample): three collinear picked vertices — degenerate
geometry for the three-point solver — do not make `handle` return `False`:
it returns `True` while the working plane is left unchanged (the solver's
failure is silently dropped), and `checkSelection` therefore terminates the
session, closing the dialog instead of keeping it awaiting input. -/
theorem degenerate_selection_cex :
    (handle hostA selCollinear stAwait).2 = true ∧
    (handle hostA selCollinear stAwait).1.plane = stAwait.plane ∧
    (checkSelection hostA selCollinear stAwait).dialogOpen = false ∧
    stAwait.dialogOpen = true := by
  have e3 : alignTo3Points ⟨0, 0, 0⟩ ⟨1, 0, 0⟩ ⟨2, 0, 0⟩ (0 : ℚ) = none := by
    unfold alignTo3Points
    rw [if_pos (by norm_num [cross, Vec.zero, Vec.mk.injEq, vec_sub_def])]
  have est : ({ stAwait with
      plane := (alignTo3Points ⟨0, 0, 0⟩ ⟨1, 0, 0⟩ ⟨2, 0, 0⟩ (0 : ℚ)).getD stAwait.plane } :
      SessionState) = stAwait := by
    rw [e3]
    rfl
  have hplane : (handle hostA selCollinear stAwait).1.plane = stAwait.plane := by
    calc (handle hostA selCollinear stAwait).1.plane
        = (display hostA
            (DisplayArg.vec (({ stAwait with
              plane := (alignTo3Points ⟨0, 0, 0⟩ ⟨1, 0, 0⟩ ⟨2, 0, 0⟩
                (0 : ℚ)).getD stAwait.plane } : SessionState)).plane.axis)
            ({ stAwait with
              plane := (alignTo3Points ⟨0, 0, 0⟩ ⟨1, 0, 0⟩ ⟨2, 0, 0⟩
                (0 : ℚ)).getD stAwait.plane } : SessionState)).plane := rfl
      _ = stAwait.plane := by rw [display_plane, est]
  exact ⟨rfl, hplane, rfl, rfl⟩

end SelectPlane
